import Mathlib

/-!
Verification of the sunk client-side data layer (Subsonic API client):
the response envelope dispatch (`src/response.rs`) and the artist entity
normalization layer (`src/collections/artist.rs`), embedded shallowly.

JSON values (serde_json::Value) are modelled by the inductive `Json`;
numbers are modelled as integers, which covers every payload the
dispatch and coercion logic touches.
-/

/-- A structured JSON value, modelling `serde_json::Value`. -/
inductive Json where
  | null : Json
  | bool : Bool → Json
  | num : Int → Json
  | str : String → Json
  | arr : List Json → Json
  | obj : List (String × Json) → Json
deriving Repr

/-! ## Decimal parsing and printing

`str::parse::<u64>()` accepts an optional leading `+` followed by one or
more ASCII digits, and fails on any other character or on overflow past
`u64::MAX`.  Checked accumulation overflows exactly when the final value
does, so the final range check below is equivalent. -/

/-- The numeric value of an ASCII digit character, if it is one. -/
def digitVal (c : Char) : Option Nat :=
  if '0' ≤ c ∧ c ≤ '9' then some (c.toNat - '0'.toNat) else none

/-- Left-fold decimal accumulation over a character list. -/
def parseDigitsAux (acc : Nat) : List Char → Option Nat
  | [] => some acc
  | c :: t =>
    match digitVal c with
    | none => none
    | some d => parseDigitsAux (acc * 10 + d) t

/-- Drop one optional leading plus sign, as Rust unsigned `FromStr` does. -/
def stripPlus : List Char → List Char
  | '+' :: t => t
  | cs => cs

/-- Embeds Rust `str::parse::<u64>` on a string: optional `+`, then one or
more decimal digits, value below `2^64`. -/
def parseU64 (s : String) : Option Nat :=
  if (stripPlus s.data).isEmpty then none
  else
    match parseDigitsAux 0 (stripPlus s.data) with
    | none => none
    -- the literal is 2^64, the exclusive upper bound of u64
    | some v => if v < 18446744073709551616 then some v else none

/-- Decimal digit characters of a natural number, most significant first;
embeds the `Display` rendering of a Rust `u64`. -/
def natToChars (n : Nat) : List Char :=
  if _h : n < 10 then [Nat.digitChar n]
  else natToChars (n / 10) ++ [Nat.digitChar (n % 10)]
decreasing_by exact Nat.div_lt_self (by omega) (by omega)

/-- Decimal rendering of a natural number (Rust `u64` `to_string`). -/
def natToString (n : Nat) : String := ⟨natToChars n⟩

/-! ## Errors

`src/error.rs` is not present under `src/`; the error kinds are taken
from the specification (§7), plus the `Other` variant that the code in
`src/` visibly constructs. -/

/-- Modelled from the spec: the embedded API error of a failed envelope,
carrying a numeric code and a message (src/error.rs is absent from src/). -/
structure ApiError where
  code : Nat
  message : String
deriving Repr, DecidableEq

/-- Modelled from the spec: the error kinds of §7 — `Api(code, message)`,
`Malformed(field, raw_text)`, `NotFound`, transport passthrough — plus the
`Other(&'static str)` variant that `src/response.rs` and
`src/collections/artist.rs` construct, and a passthrough `Serde` variant
for structured-parse failures converted by `?` at call sites
(src/error.rs is absent from src/). -/
inductive Error where
  | Api : Nat → String → Error
  | Malformed : String → String → Error
  | NotFound : Error
  | Transport : String → Error
  | Serde : String → Error
  | Other : String → Error
deriving Repr, DecidableEq

/-! ## The response envelope (`src/response.rs`) -/

/-- Embeds `InnerResponse`: the status and version strings, the optional
embedded error, and the 43 optional payload fields in declaration order. -/
structure InnerResponse where
  status : String
  version : String
  error : Option ApiError
  license : Option Json
  music_folders : Option Json
  indexes : Option Json
  directory : Option Json
  genres : Option Json
  artists : Option Json
  artist : Option Json
  albums : Option Json
  album : Option Json
  song : Option Json
  videos : Option Json
  video_info : Option Json
  artist_info : Option Json
  artist_info2 : Option Json
  album_info : Option Json
  similar_songs : Option Json
  similar_songs2 : Option Json
  top_songs : Option Json
  album_list : Option Json
  album_list2 : Option Json
  random_songs : Option Json
  songs_by_genre : Option Json
  now_playing : Option Json
  starred : Option Json
  starred2 : Option Json
  search_result : Option Json
  search_result2 : Option Json
  search_result3 : Option Json
  playlists : Option Json
  playlist : Option Json
  lyrics : Option Json
  shares : Option Json
  podcasts : Option Json
  newest_podcasts : Option Json
  jukebox_status : Option Json
  jukebox_playlist : Option Json
  internet_radio_stations : Option Json
  chat_messages : Option Json
  user : Option Json
  users : Option Json
  bookmarks : Option Json
  play_queue : Option Json
  scan_status : Option Json

/-- Embeds `Response`, the top-level wrapper. -/
structure Response where
  inner : InnerResponse

/-- First populated entry of an ordered list of optional values; this is
the sequential early-return behaviour of the `maybe!` macro chain. -/
def firstSome : List (Option Json) → Option Json
  | [] => none
  | some v :: _ => some v
  | none :: t => firstSome t

/-- The exact sequence of fields checked by the `maybe!` chain in
`Response::into_value`, in source order — including the duplicated
`music_folders` check on lines 89–90. -/
def InnerResponse.scanList (r : InnerResponse) : List (Option Json) :=
  [r.license, r.music_folders, r.music_folders, r.indexes, r.directory,
   r.genres, r.artists, r.artist, r.albums, r.album, r.song, r.videos,
   r.video_info, r.artist_info, r.artist_info2, r.album_info,
   r.similar_songs, r.similar_songs2, r.top_songs, r.album_list,
   r.album_list2, r.random_songs, r.songs_by_genre, r.now_playing,
   r.starred, r.starred2, r.search_result, r.search_result2,
   r.search_result3, r.playlists, r.playlist, r.lyrics, r.shares,
   r.podcasts, r.newest_podcasts, r.jukebox_status, r.jukebox_playlist,
   r.internet_radio_stations, r.chat_messages, r.user, r.users,
   r.bookmarks, r.play_queue, r.scan_status]

/-- The 43 payload fields of the envelope, each exactly once, in
declaration order (the canonical priority order). -/
def InnerResponse.payloadFields (r : InnerResponse) : List (Option Json) :=
  [r.license, r.music_folders, r.indexes, r.directory,
   r.genres, r.artists, r.artist, r.albums, r.album, r.song, r.videos,
   r.video_info, r.artist_info, r.artist_info2, r.album_info,
   r.similar_songs, r.similar_songs2, r.top_songs, r.album_list,
   r.album_list2, r.random_songs, r.songs_by_genre, r.now_playing,
   r.starred, r.starred2, r.search_result, r.search_result2,
   r.search_result3, r.playlists, r.playlist, r.lyrics, r.shares,
   r.podcasts, r.newest_podcasts, r.jukebox_status, r.jukebox_playlist,
   r.internet_radio_stations, r.chat_messages, r.user, r.users,
   r.bookmarks, r.play_queue, r.scan_status]

/-- Embeds `Response::into_value`: if the embedded error is populated,
return it (converted to `Error`); otherwise scan the `maybe!` chain and
return the first populated payload value; otherwise the terminal
`Error::Other` value. -/
def Response.into_value (r : Response) : Except Error Json :=
  match r.inner.error with
  | some e => .error (Error.Api e.code e.message)
  | none =>
    match firstSome r.inner.scanList with
    | some v => .ok v
    | none => .error (Error.Other "non-exhaustive `into_value()`")

/-- Embeds `Response::is_ok`: the status string equals `"ok"`. -/
def Response.is_ok (r : Response) : Bool := r.inner.status == "ok"

/-- Embeds `Response::is_err`: the status string equals `"failed"`. -/
def Response.is_err (r : Response) : Bool := r.inner.status == "failed"

/-! ## Structured-value field access

These helpers embed what serde's derived deserializers do when reading a
struct out of a `serde_json::Value` map: required fields must be present
with the expected type, `Option` fields map absent or null to `None`, and
unknown fields are ignored. -/

/-- Look a field up by wire name in a JSON object. -/
def getField (fs : List (String × Json)) (k : String) : Option Json :=
  (fs.find? (fun p => p.1 == k)).map (fun p => p.2)

/-- A required `String` field. -/
def reqString (fs : List (String × Json)) (k : String) : Except String String :=
  match getField fs k with
  | some (.str s) => .ok s
  | some _ => .error ("invalid type for field " ++ k ++ ", expected a string")
  | none => .error ("missing field " ++ k)

/-- A required `u64` field: a non-negative integer below `2^64`. -/
def reqU64 (fs : List (String × Json)) (k : String) : Except String Nat :=
  match getField fs k with
  | some (.num n) =>
    -- the literal is 2^64, the exclusive upper bound of u64
    if 0 ≤ n ∧ n < 18446744073709551616 then .ok n.toNat
    else .error ("invalid value for field " ++ k ++ ", expected u64")
  | some _ => .error ("invalid type for field " ++ k ++ ", expected u64")
  | none => .error ("missing field " ++ k)

/-- An `Option<String>` field: absent or null is `None`. -/
def optString (fs : List (String × Json)) (k : String) :
    Except String (Option String) :=
  match getField fs k with
  | none => .ok none
  | some .null => .ok none
  | some (.str s) => .ok (some s)
  | some _ => .error ("invalid type for field " ++ k ++ ", expected a string")

/-! ## The album entity

`src/album.rs` is not present under `src/`; the `Album` entity is
modelled from the spec with the fields its end-to-end example touches
(`{id:1, name:"Bellevue", song_count:9}`). -/

/-- Modelled from the spec: the album sub-entity with the attributes the
spec's end-to-end example exercises (src/album.rs is absent from src/). -/
structure Album where
  id : Nat
  name : String
  song_count : Nat
deriving Repr, DecidableEq

/-- Modelled from the spec: `parse_lenient_uint(text_or_number)` (§9) —
a declared-numeric field arriving as a native number or a numeric string
is parsed uniformly into an unsigned 64-bit integer. -/
def lenientU64 (j : Json) : Option Nat :=
  match j with
  -- the literal is 2^64, the exclusive upper bound of u64
  | .num n => if 0 ≤ n ∧ n < 18446744073709551616 then some n.toNat else none
  | .str s => parseU64 s
  | _ => none

/-- A required lenient numeric field (number or numeric string). -/
def reqLenientU64 (fs : List (String × Json)) (k : String) :
    Except String Nat :=
  match getField fs k with
  | none => .error ("missing field " ++ k)
  | some j =>
    match lenientU64 j with
    | some v => .ok v
    | none => .error ("Malformed field " ++ k)

/-- Modelled from the spec: normalization of one album payload, coercing
the declared-numeric fields leniently (src/album.rs is absent from src/). -/
def Album.fromJson (j : Json) : Except String Album :=
  match j with
  | .obj fs => do
    let i ← reqLenientU64 fs "id"
    let nm ← reqString fs "name"
    let sc ← reqLenientU64 fs "songCount"
    pure ⟨i, nm, sc⟩
  | _ => .error "invalid type, expected an object"

/-- Modelled from the spec: serialization of a canonical album back to its
wire shape (camelCase field names). -/
def Album.toJson (a : Album) : Json :=
  .obj [("id", .num a.id), ("name", .str a.name),
        ("songCount", .num a.song_count)]

/-- Element-wise parse of a JSON array of albums (`Vec<Album>`): the first
failing element fails the whole sequence. -/
def parseAlbumList : List Json → Except String (List Album)
  | [] => .ok []
  | j :: t => do
    let a ← Album.fromJson j
    let r ← parseAlbumList t
    pure (a :: r)

/-! ## The artist entity (`src/collections/artist.rs`) -/

/-- Embeds the intermediate `_Artist` struct of `Artist`'s `Deserialize`
impl: `id` is a `String`, `album_count` a `u64`, and `album` a defaulted
`Vec<Album>`, with camelCase wire names. -/
structure RawArtist where
  id : String
  name : String
  cover_art : Option String
  album_count : Nat
  album : List Album

/-- Embeds the derived deserialization of `_Artist` from a structured
value. -/
def RawArtist.fromJson (j : Json) : Except String RawArtist :=
  match j with
  | .obj fs => do
    let i ← reqString fs "id"
    let nm ← reqString fs "name"
    let ca ← optString fs "coverArt"
    let cnt ← reqU64 fs "albumCount"
    let albs ←
      match getField fs "album" with
      | none => Except.ok []
      | some (.arr js) => parseAlbumList js
      | some _ =>
        Except.error "invalid type for field album, expected a sequence"
    pure ⟨i, nm, ca, cnt, albs⟩
  | _ => .error "invalid type, expected an object"

/-- Embeds the `Artist` entity. -/
structure Artist where
  id : Nat
  name : String
  cover_id : Option String
  albums : List Album
  album_count : Nat
deriving Repr, DecidableEq

/-- Outcome of a Rust `Deserialize` impl that may also panic: `ok` is a
successful parse, `err` a returned `D::Error`, and `panicked` an
`unwrap()` panic. -/
inductive DeOut (α : Type) where
  | ok : α → DeOut α
  | err : String → DeOut α
  | panicked : String → DeOut α
deriving Repr, DecidableEq

/-- Embeds `impl Deserialize for Artist`: deserialize `_Artist`, then
build the entity with `raw.id.parse().unwrap()` — a parse failure panics
instead of returning an error. -/
def Artist.fromJson (j : Json) : DeOut Artist :=
  match RawArtist.fromJson j with
  | .error m => .err m
  | .ok raw =>
    match parseU64 raw.id with
    | none => .panicked ("called `Result::unwrap()` on an `Err` value: " ++ raw.id)
    | some i => .ok ⟨i, raw.name, raw.cover_art, raw.album, raw.album_count⟩

/-- Embeds the `SimilarArtist` entity. -/
structure SimilarArtist where
  id : Nat
  name : String
  cover_art : Option String
  album_count : Nat
deriving Repr, DecidableEq

/-- Embeds the intermediate `_SimilarArtist` struct: `id` and
`album_count` are both `String`s on the wire. -/
structure RawSimilarArtist where
  id : String
  name : String
  cover_art : Option String
  album_count : String

/-- Embeds the derived deserialization of `_SimilarArtist`. -/
def RawSimilarArtist.fromJson (j : Json) : Except String RawSimilarArtist :=
  match j with
  | .obj fs => do
    let i ← reqString fs "id"
    let nm ← reqString fs "name"
    let ca ← optString fs "coverArt"
    let cnt ← reqString fs "albumCount"
    pure ⟨i, nm, ca, cnt⟩
  | _ => .error "invalid type, expected an object"

/-- Embeds `impl Deserialize for SimilarArtist`: both numeric fields go
through `.parse().unwrap()`, panicking on a parse failure. -/
def SimilarArtist.fromJson (j : Json) : DeOut SimilarArtist :=
  match RawSimilarArtist.fromJson j with
  | .error m => .err m
  | .ok raw =>
    match parseU64 raw.id with
    | none => .panicked ("called `Result::unwrap()` on an `Err` value: " ++ raw.id)
    | some i =>
      match parseU64 raw.album_count with
      | none =>
        .panicked ("called `Result::unwrap()` on an `Err` value: " ++ raw.album_count)
      | some c => .ok ⟨i, raw.name, raw.cover_art, c⟩

/-- Modelled from the spec: serialization of a canonical artist back to
its wire shape — camelCase names, identity as a numeric string, count as
a native number, optional cover reference omitted when unset. -/
def Artist.toJson (a : Artist) : Json :=
  .obj ([("id", .str (natToString a.id)), ("name", .str a.name)]
    ++ (match a.cover_id with
        | none => []
        | some c => [("coverArt", .str c)])
    ++ [("albumCount", .num a.album_count),
        ("album", .arr (a.albums.map Album.toJson))])

/-! ## The transport collaborator and accessor operations

`src/client.rs` and `src/query.rs` are not present under `src/`; the
transport capability and query building are modelled from the spec (§6):
a client performs one named remote operation with ordered query
parameters and returns a resolved structured value or an error.  Calls
are recorded as a trace so that theorems can count round trips. -/

/-- One recorded transport call: operation name and query parameters. -/
abbrev Call := String × List (String × String)

/-- Modelled from the spec: the transport capability
`invoke(operation_name, query_parameters) -> Result<OpaqueValue, _>`
(src/client.rs is absent from src/). -/
abbrev ClientFn := String → List (String × String) → Except Error Json

/-- Modelled from the spec: `Query::with(key, value)` builds an ordered
parameter mapping with one entry (src/query.rs is absent from src/). -/
def queryWith (k v : String) : List (String × String) := [(k, v)]

/-- One instrumented `client.get` call: performs the remote operation and
records it in the trace. -/
def clientGet (c : ClientFn) (op : String) (q : List (String × String)) :
    Except Error Json × List Call :=
  (c op q, [(op, q)])

/-- Outcome of an accessor operation: success, a surfaced `Error`, or a
propagated deserializer panic. -/
inductive RRes (α : Type) where
  | ok : α → RRes α
  | err : Error → RRes α
  | panicked : String → RRes α
deriving Repr

/-- Embeds `get_artist`: one `client.get("getArtist", Query::with("id", id))`
round trip, then normalization of the returned value into an `Artist`,
with deserialization errors converted by `?`. -/
def get_artist (c : ClientFn) (id : Nat) : RRes Artist × List Call :=
  let (r, calls) := clientGet c "getArtist" (queryWith "id" (natToString id))
  (match r with
   | .error e => .err e
   | .ok v =>
     match Artist.fromJson v with
     | .ok a => .ok a
     | .err m => .err (Error.Serde m)
     | .panicked m => .panicked m,
   calls)

/-- Embeds `Artist::albums`: if the embedded album list's length differs
from `album_count`, fetch the artist again and return the fresh embedded
list; otherwise return the embedded list as-is. -/
def Artist.albumsWith (a : Artist) (c : ClientFn) :
    RRes (List Album) × List Call :=
  if a.albums.length ≠ a.album_count then
    let (r, calls) := get_artist c a.id
    (match r with
     | .ok art => .ok art.albums
     | .err e => .err e
     | .panicked m => .panicked m,
     calls)
  else (.ok a.albums, [])

/-- Embeds `SimilarArtist::into_artist`: a fresh full fetch of the artist
by the secondary entity's identity. -/
def SimilarArtist.into_artist (s : SimilarArtist) (c : ClientFn) :
    RRes Artist × List Call :=
  get_artist c s.id

/-! ## Decimal parse/print lemmas -/

/-- Digit characters parse back to their value. -/
theorem digitVal_digitChar (d : Nat) (h : d < 10) :
    digitVal (Nat.digitChar d) = some d := by
  interval_cases d <;> decide

/-- Digit characters are not the plus sign. -/
theorem digitChar_ne_plus (d : Nat) (h : d < 10) : Nat.digitChar d ≠ '+' := by
  interval_cases d <;> decide

/-- Accumulation splits over list append. -/
theorem parseDigitsAux_append (l1 l2 : List Char) (acc : Nat) :
    parseDigitsAux acc (l1 ++ l2) =
      match parseDigitsAux acc l1 with
      | none => none
      | some v => parseDigitsAux v l2 := by
  induction l1 generalizing acc with
  | nil => rfl
  | cons c t ih =>
    simp only [List.cons_append, parseDigitsAux]
    cases digitVal c with
    | none => rfl
    | some d => exact ih _

/-- The rendered digits of `n` are never empty. -/
theorem natToChars_ne_nil (n : Nat) : natToChars n ≠ [] := by
  rw [natToChars]
  split
  · simp
  · simp

/-- Every rendered character is a decimal digit character. -/
theorem natToChars_mem_digit (n : Nat) :
    ∀ c ∈ natToChars n, ∃ d, d < 10 ∧ c = Nat.digitChar d := by
  induction n using Nat.strong_induction_on with
  | _ n ih =>
    intro c hc
    rw [natToChars] at hc
    split at hc
    · simp at hc
      exact ⟨n, by omega, hc⟩
    · rw [List.mem_append] at hc
      rcases hc with hc | hc
      · exact ih (n / 10) (Nat.div_lt_self (by omega) (by omega)) c hc
      · simp at hc
        exact ⟨n % 10, Nat.mod_lt n (by omega), hc⟩

/-- Folding the rendered digits of `n` on top of `acc` yields
`acc` shifted past them, plus `n`. -/
theorem parseDigitsAux_natToChars (n : Nat) :
    ∀ acc, parseDigitsAux acc (natToChars n) =
      some (acc * 10 ^ (natToChars n).length + n) := by
  induction n using Nat.strong_induction_on with
  | _ n ih =>
    intro acc
    rw [natToChars]
    split
    · simp only [parseDigitsAux, digitVal_digitChar n (by omega)]
      simp
    · rw [parseDigitsAux_append]
      rw [ih (n / 10) (Nat.div_lt_self (by omega) (by omega)) acc]
      simp only [parseDigitsAux, digitVal_digitChar (n % 10) (Nat.mod_lt n (by omega))]
      have hn : 10 * (n / 10) + n % 10 = n := Nat.div_add_mod n 10
      simp only [List.length_append, List.length_cons, List.length_nil]
      congr 1
      ring_nf
      omega

/-- Rendered digits carry no leading plus sign. -/
theorem stripPlus_natToChars (n : Nat) :
    stripPlus (natToChars n) = natToChars n := by
  cases h : natToChars n with
  | nil => rfl
  | cons c t =>
    have hc : ∃ d, d < 10 ∧ c = Nat.digitChar d := by
      apply natToChars_mem_digit n
      rw [h]
      exact List.mem_cons_self c t
    rcases hc with ⟨d, hd, rfl⟩
    unfold stripPlus
    split
    · rename_i heq
      exact absurd (List.head_eq_of_cons_eq heq) (digitChar_ne_plus d hd)
    · rfl

/-- Printing then parsing a `u64` value is the identity. -/
theorem parseU64_natToString (n : Nat) (h : n < 2 ^ 64) :
    parseU64 (natToString n) = some n := by
  unfold parseU64 natToString
  have hdata : (String.mk (natToChars n)).data = natToChars n := rfl
  rw [hdata, stripPlus_natToChars]
  rw [if_neg (by simp [List.isEmpty_iff, natToChars_ne_nil])]
  rw [parseDigitsAux_natToChars n 0]
  simp
  omega

/-- A successful `u64` parse is below `2^64`. -/
theorem parseU64_lt (s : String) (v : Nat) (h : parseU64 s = some v) :
    v < 2 ^ 64 := by
  unfold parseU64 at h
  split at h
  · exact absurd h (by simp)
  · split at h
    · exact absurd h (by simp)
    · split at h
      · simp only [Option.some.injEq] at h
        omega
      · exact absurd h (by simp)

/-! ## Entity normalization lemmas -/

/-- Inversion for a successful `Except` bind. -/
theorem except_bind_ok {ε α β : Type} {x : Except ε α} {f : α → Except ε β}
    {b : β} (h : (x >>= f) = .ok b) : ∃ a, x = .ok a ∧ f a = .ok b := by
  cases x with
  | error e => exact absurd h (by simp [Bind.bind, Except.bind])
  | ok a => exact ⟨a, rfl, by simpa [Bind.bind, Except.bind] using h⟩

/-- A successful lenient coercion is below `2^64`. -/
theorem lenientU64_lt (j : Json) (v : Nat) (h : lenientU64 j = some v) :
    v < 2 ^ 64 := by
  simp only [lenientU64] at h
  split at h
  · split at h
    · simp only [Option.some.injEq] at h
      omega
    · exact absurd h (by simp)
  · exact parseU64_lt _ v h
  · exact absurd h (by simp)

/-- Lenient coercion accepts an in-range native number unchanged. -/
theorem lenientU64_num (v : Nat) (h : v < 2 ^ 64) :
    lenientU64 (Json.num v) = some v := by
  simp only [lenientU64]
  rw [if_pos (by omega)]
  simp only [Option.some.injEq]
  omega

/-- A successful lenient field read is below `2^64`. -/
theorem reqLenientU64_ok_lt (fs : List (String × Json)) (k : String) (v : Nat)
    (h : reqLenientU64 fs k = .ok v) : v < 2 ^ 64 := by
  simp only [reqLenientU64] at h
  split at h
  · exact absurd h (by simp)
  · rename_i j hj
    split at h
    · rename_i w hw
      simp only [Except.ok.injEq] at h
      exact h ▸ lenientU64_lt j w hw
    · exact absurd h (by simp)

/-- A lenient field read through a found native number. -/
theorem reqLenientU64_of_getField_num (fs : List (String × Json)) (k : String)
    (c : Nat) (hg : getField fs k = some (Json.num c)) (h : c < 2 ^ 64) :
    reqLenientU64 fs k = .ok c := by
  unfold reqLenientU64
  split
  · rename_i hnone
    rw [hg] at hnone
    cases hnone
  · rename_i j hj
    rw [hg] at hj
    injection hj with hj
    subst hj
    rw [lenientU64_num c h]

/-- A required string read through a found string. -/
theorem reqString_of_getField (fs : List (String × Json)) (k : String)
    (s : String) (hg : getField fs k = some (.str s)) :
    reqString fs k = .ok s := by
  simp only [reqString, hg]

/-- An optional string read with the field absent. -/
theorem optString_of_getField_none (fs : List (String × Json)) (k : String)
    (hg : getField fs k = none) : optString fs k = .ok none := by
  simp only [optString, hg]

/-- An optional string read through a found string. -/
theorem optString_of_getField_str (fs : List (String × Json)) (k : String)
    (s : String) (hg : getField fs k = some (.str s)) :
    optString fs k = .ok (some s) := by
  simp only [optString, hg]

/-- A `u64` field read through a found in-range native number. -/
theorem reqU64_of_getField (fs : List (String × Json)) (k : String) (c : Nat)
    (hg : getField fs k = some (Json.num c)) (h : c < 2 ^ 64) :
    reqU64 fs k = .ok c := by
  simp only [reqU64, hg]
  rw [if_pos (by omega)]
  simp only [Except.ok.injEq]
  omega

/-- A successful `u64` field read is below `2^64`. -/
theorem reqU64_ok_lt (fs : List (String × Json)) (k : String) (v : Nat)
    (h : reqU64 fs k = .ok v) : v < 2 ^ 64 := by
  simp only [reqU64] at h
  split at h
  · split at h
    · rename_i n hn
      simp only [Except.ok.injEq] at h
      omega
    · exact absurd h (by simp)
  · exact absurd h (by simp)
  · exact absurd h (by simp)

/-- Bind on a successful `Except` computes the continuation. -/
theorem except_ok_bind {ε α β : Type} (a : α) (f : α → Except ε β) :
    (Except.ok a >>= f) = f a := rfl

/-- The `pure` of `Except` is `ok`. -/
theorem except_pure_eq {ε α : Type} (a : α) :
    (pure a : Except ε α) = Except.ok a := rfl

/-- Bind on a failed `Except` propagates the failure. -/
theorem except_error_bind {ε α β : Type} (e : ε) (f : α → Except ε β) :
    (Except.error e >>= f) = Except.error e := rfl

/-- Bounds carried by a successfully normalized album. -/
theorem album_fromJson_bounds (j : Json) (a : Album)
    (h : Album.fromJson j = .ok a) :
    a.id < 2 ^ 64 ∧ a.song_count < 2 ^ 64 := by
  cases j with
  | obj fs =>
    simp only [Album.fromJson] at h
    obtain ⟨i, hi, h⟩ := except_bind_ok h
    obtain ⟨nm, hnm, h⟩ := except_bind_ok h
    obtain ⟨sc, hsc, h⟩ := except_bind_ok h
    have ha : Album.mk i nm sc = a := by
      simpa [except_pure_eq] using h
    subst ha
    exact ⟨reqLenientU64_ok_lt fs "id" i hi,
           reqLenientU64_ok_lt fs "songCount" sc hsc⟩
  | null => exact absurd h (by simp [Album.fromJson])
  | bool b => exact absurd h (by simp [Album.fromJson])
  | num n => exact absurd h (by simp [Album.fromJson])
  | str s => exact absurd h (by simp [Album.fromJson])
  | arr l => exact absurd h (by simp [Album.fromJson])

/-- Re-parsing the serialized wire form of an in-range album succeeds. -/
theorem album_fromJson_toJson (a : Album) (h1 : a.id < 2 ^ 64)
    (h2 : a.song_count < 2 ^ 64) :
    Album.fromJson (Album.toJson a) = .ok a := by
  have halb : getField [("id", Json.num a.id), ("name", Json.str a.name),
      ("songCount", Json.num a.song_count)] "songCount"
      = some (Json.num a.song_count) := rfl
  simp only [Album.toJson, Album.fromJson,
    reqLenientU64_of_getField_num [("id", Json.num a.id),
      ("name", Json.str a.name), ("songCount", Json.num a.song_count)]
      "id" a.id rfl h1,
    reqString_of_getField [("id", Json.num a.id), ("name", Json.str a.name),
      ("songCount", Json.num a.song_count)] "name" a.name rfl,
    reqLenientU64_of_getField_num [("id", Json.num a.id),
      ("name", Json.str a.name), ("songCount", Json.num a.song_count)]
      "songCount" a.song_count halb h2,
    except_ok_bind, except_pure_eq]

/-- Normalization-then-serialization round trip for one album. -/
theorem album_roundtrip (j : Json) (a : Album)
    (h : Album.fromJson j = .ok a) :
    Album.fromJson (Album.toJson a) = .ok a := by
  obtain ⟨h1, h2⟩ := album_fromJson_bounds j a h
  exact album_fromJson_toJson a h1 h2

/-- Round trip for a successfully parsed album sequence. -/
theorem parseAlbumList_roundtrip (js : List Json) (as : List Album)
    (h : parseAlbumList js = .ok as) :
    parseAlbumList (as.map Album.toJson) = .ok as := by
  induction js generalizing as with
  | nil =>
    simp only [parseAlbumList] at h
    injection h with h
    subst h
    rfl
  | cons j t ih =>
    simp only [parseAlbumList] at h
    obtain ⟨a, ha, h⟩ := except_bind_ok h
    obtain ⟨r, hr, h⟩ := except_bind_ok h
    have hc : a :: r = as := by
      simpa [except_pure_eq] using h
    subst hc
    simp only [List.map_cons, parseAlbumList]
    rw [album_roundtrip j a ha]
    rw [except_ok_bind]
    rw [ih r hr]
    rfl

/-- A successfully parsed raw artist has an in-range count and a
re-parseable album list. -/
theorem rawArtist_fromJson_props (j : Json) (raw : RawArtist)
    (h : RawArtist.fromJson j = .ok raw) :
    raw.album_count < 2 ^ 64 ∧
    parseAlbumList (raw.album.map Album.toJson) = .ok raw.album := by
  cases j with
  | obj fs =>
    simp only [RawArtist.fromJson] at h
    obtain ⟨i, hi, h⟩ := except_bind_ok h
    obtain ⟨nm, hnm, h⟩ := except_bind_ok h
    obtain ⟨ca, hca, h⟩ := except_bind_ok h
    obtain ⟨cnt, hcnt, h⟩ := except_bind_ok h
    have hbound := reqU64_ok_lt fs "albumCount" cnt hcnt
    split at h
    · have hmk : RawArtist.mk i nm ca cnt [] = raw := by
        simpa [except_ok_bind, except_pure_eq] using h
      subst hmk
      exact ⟨hbound, rfl⟩
    · rename_i js hjs
      obtain ⟨albs, halbs, h⟩ := except_bind_ok h
      have hmk : RawArtist.mk i nm ca cnt albs = raw := by
        simpa [except_pure_eq] using h
      subst hmk
      exact ⟨hbound, parseAlbumList_roundtrip js albs halbs⟩
    · rw [except_error_bind] at h
      exact absurd h (by simp)
  | null => exact absurd h (by simp [RawArtist.fromJson])
  | bool b => exact absurd h (by simp [RawArtist.fromJson])
  | num n => exact absurd h (by simp [RawArtist.fromJson])
  | str s => exact absurd h (by simp [RawArtist.fromJson])
  | arr l => exact absurd h (by simp [RawArtist.fromJson])

/-- The serialized wire form of an artist (cover reference unset)
re-parses to the corresponding raw artist. -/
theorem rawArtist_of_toJson_none (a : Artist) (hc : a.cover_id = none)
    (h2 : a.album_count < 2 ^ 64)
    (h3 : parseAlbumList (a.albums.map Album.toJson) = .ok a.albums) :
    RawArtist.fromJson (Artist.toJson a)
      = .ok ⟨natToString a.id, a.name, a.cover_id, a.album_count, a.albums⟩ := by
  have hwire : Artist.toJson a
      = Json.obj [("id", Json.str (natToString a.id)),
          ("name", Json.str a.name),
          ("albumCount", Json.num a.album_count),
          ("album", Json.arr (a.albums.map Album.toJson))] := by
    simp [Artist.toJson, hc]
  rw [hwire, hc]
  have hcnt : getField [("id", Json.str (natToString a.id)),
      ("name", Json.str a.name), ("albumCount", Json.num a.album_count),
      ("album", Json.arr (a.albums.map Album.toJson))] "albumCount"
      = some (Json.num a.album_count) := rfl
  have halb : getField [("id", Json.str (natToString a.id)),
      ("name", Json.str a.name), ("albumCount", Json.num a.album_count),
      ("album", Json.arr (a.albums.map Album.toJson))] "album"
      = some (Json.arr (a.albums.map Album.toJson)) := rfl
  simp only [RawArtist.fromJson,
    reqString_of_getField [("id", Json.str (natToString a.id)),
      ("name", Json.str a.name), ("albumCount", Json.num a.album_count),
      ("album", Json.arr (a.albums.map Album.toJson))] "id"
      (natToString a.id) rfl,
    reqString_of_getField [("id", Json.str (natToString a.id)),
      ("name", Json.str a.name), ("albumCount", Json.num a.album_count),
      ("album", Json.arr (a.albums.map Album.toJson))] "name" a.name rfl,
    optString_of_getField_none [("id", Json.str (natToString a.id)),
      ("name", Json.str a.name), ("albumCount", Json.num a.album_count),
      ("album", Json.arr (a.albums.map Album.toJson))] "coverArt" rfl,
    reqU64_of_getField [("id", Json.str (natToString a.id)),
      ("name", Json.str a.name), ("albumCount", Json.num a.album_count),
      ("album", Json.arr (a.albums.map Album.toJson))] "albumCount"
      a.album_count hcnt h2,
    halb, h3, except_ok_bind, except_pure_eq]

/-- The serialized wire form of an artist (cover reference set)
re-parses to the corresponding raw artist. -/
theorem rawArtist_of_toJson_some (a : Artist) (c : String)
    (hc : a.cover_id = some c) (h2 : a.album_count < 2 ^ 64)
    (h3 : parseAlbumList (a.albums.map Album.toJson) = .ok a.albums) :
    RawArtist.fromJson (Artist.toJson a)
      = .ok ⟨natToString a.id, a.name, a.cover_id, a.album_count, a.albums⟩ := by
  have hwire : Artist.toJson a
      = Json.obj [("id", Json.str (natToString a.id)),
          ("name", Json.str a.name), ("coverArt", Json.str c),
          ("albumCount", Json.num a.album_count),
          ("album", Json.arr (a.albums.map Album.toJson))] := by
    simp [Artist.toJson, hc]
  rw [hwire, hc]
  have hcov : getField [("id", Json.str (natToString a.id)),
      ("name", Json.str a.name), ("coverArt", Json.str c),
      ("albumCount", Json.num a.album_count),
      ("album", Json.arr (a.albums.map Album.toJson))] "coverArt"
      = some (Json.str c) := rfl
  have hcnt : getField [("id", Json.str (natToString a.id)),
      ("name", Json.str a.name), ("coverArt", Json.str c),
      ("albumCount", Json.num a.album_count),
      ("album", Json.arr (a.albums.map Album.toJson))] "albumCount"
      = some (Json.num a.album_count) := rfl
  have halb : getField [("id", Json.str (natToString a.id)),
      ("name", Json.str a.name), ("coverArt", Json.str c),
      ("albumCount", Json.num a.album_count),
      ("album", Json.arr (a.albums.map Album.toJson))] "album"
      = some (Json.arr (a.albums.map Album.toJson)) := rfl
  simp only [RawArtist.fromJson,
    reqString_of_getField [("id", Json.str (natToString a.id)),
      ("name", Json.str a.name), ("coverArt", Json.str c),
      ("albumCount", Json.num a.album_count),
      ("album", Json.arr (a.albums.map Album.toJson))] "id"
      (natToString a.id) rfl,
    reqString_of_getField [("id", Json.str (natToString a.id)),
      ("name", Json.str a.name), ("coverArt", Json.str c),
      ("albumCount", Json.num a.album_count),
      ("album", Json.arr (a.albums.map Album.toJson))] "name" a.name rfl,
    optString_of_getField_str [("id", Json.str (natToString a.id)),
      ("name", Json.str a.name), ("coverArt", Json.str c),
      ("albumCount", Json.num a.album_count),
      ("album", Json.arr (a.albums.map Album.toJson))] "coverArt" c hcov,
    reqU64_of_getField [("id", Json.str (natToString a.id)),
      ("name", Json.str a.name), ("coverArt", Json.str c),
      ("albumCount", Json.num a.album_count),
      ("album", Json.arr (a.albums.map Album.toJson))] "albumCount"
      a.album_count hcnt h2,
    halb, h3, except_ok_bind, except_pure_eq]

/-- The serialized wire form of an artist re-parses to the corresponding
raw artist. -/
theorem rawArtist_of_toJson (a : Artist) (h2 : a.album_count < 2 ^ 64)
    (h3 : parseAlbumList (a.albums.map Album.toJson) = .ok a.albums) :
    RawArtist.fromJson (Artist.toJson a)
      = .ok ⟨natToString a.id, a.name, a.cover_id, a.album_count, a.albums⟩ := by
  cases hc : a.cover_id with
  | none => exact hc ▸ rawArtist_of_toJson_none a hc h2 h3
  | some c => exact hc ▸ rawArtist_of_toJson_some a c hc h2 h3

/-- Evaluation of `Artist::deserialize` through a known raw parse and a
known id parse. -/
theorem artist_fromJson_of_raw (j : Json) (raw : RawArtist)
    (hraw : RawArtist.fromJson j = .ok raw) (i : Nat)
    (hid : parseU64 raw.id = some i) :
    Artist.fromJson j
      = .ok ⟨i, raw.name, raw.cover_art, raw.album, raw.album_count⟩ := by
  unfold Artist.fromJson
  split
  · rename_i m hm
    rw [hraw] at hm
    cases hm
  · rename_i raw' hraw'
    rw [hraw] at hraw'
    injection hraw' with hraw'
    subst hraw'
    split
    · rename_i hnone
      rw [hid] at hnone
      cases hnone
    · rename_i i' hi'
      rw [hid] at hi'
      injection hi' with hi'
      subst hi'
      rfl

/-- Invariants carried by a successfully normalized artist. -/
theorem artist_fromJson_inv (j : Json) (a : Artist)
    (h : Artist.fromJson j = .ok a) :
    a.id < 2 ^ 64 ∧ a.album_count < 2 ^ 64 ∧
    parseAlbumList (a.albums.map Album.toJson) = .ok a.albums := by
  unfold Artist.fromJson at h
  split at h
  · exact absurd h (by simp)
  · rename_i raw hraw
    split at h
    · exact absurd h (by simp)
    · rename_i i hid
      injection h with h
      subst h
      obtain ⟨hcnt, halb⟩ := rawArtist_fromJson_props j raw hraw
      exact ⟨parseU64_lt raw.id i hid, hcnt, halb⟩

/-- Claim C8: for every raw payload from which an artist normalizes
successfully, re-serializing the canonical entity and normalizing again
yields the identical entity. -/
theorem c8_normalize_serialize_roundtrip (j : Json) (a : Artist)
    (h : Artist.fromJson j = .ok a) :
    Artist.fromJson (Artist.toJson a) = .ok a := by
  obtain ⟨h1, h2, h3⟩ := artist_fromJson_inv j a h
  exact artist_fromJson_of_raw (Artist.toJson a)
    ⟨natToString a.id, a.name, a.cover_id, a.album_count, a.albums⟩
    (rawArtist_of_toJson a h2 h3) a.id (parseU64_natToString a.id h1)

/-- The spec's end-to-end example payload. -/
def exampleArtistJson : Json :=
  .obj [("id", .str "1"), ("name", .str "Misteur Valaire"),
        ("coverArt", .str "ar-1"), ("albumCount", .num 1),
        ("album", .arr [.obj [("id", .str "1"), ("name", .str "Bellevue"),
                              ("songCount", .num 9)]])]

/-- Witness for C8: the spec's end-to-end example normalizes, and its
canonical entity survives the serialize/normalize round trip. -/
theorem c8_witness :
    Artist.fromJson (Artist.toJson
        ⟨1, "Misteur Valaire", some "ar-1", [⟨1, "Bellevue", 9⟩], 1⟩)
      = .ok ⟨1, "Misteur Valaire", some "ar-1", [⟨1, "Bellevue", 9⟩], 1⟩ :=
  c8_normalize_serialize_roundtrip exampleArtistJson _ rfl

/-- Evaluation of `SimilarArtist::deserialize` through a known raw parse
and known parses of both numeric strings. -/
theorem similar_fromJson_of_raw (j : Json) (raw : RawSimilarArtist)
    (hraw : RawSimilarArtist.fromJson j = .ok raw) (i cv : Nat)
    (hid : parseU64 raw.id = some i)
    (hcnt : parseU64 raw.album_count = some cv) :
    SimilarArtist.fromJson j = .ok ⟨i, raw.name, raw.cover_art, cv⟩ := by
  unfold SimilarArtist.fromJson
  split
  · rename_i m hm
    rw [hraw] at hm
    cases hm
  · rename_i raw' hraw'
    rw [hraw] at hraw'
    injection hraw' with hraw'
    subst hraw'
    split
    · rename_i hnone
      rw [hid] at hnone
      cases hnone
    · rename_i i' hi'
      rw [hid] at hi'
      injection hi' with hi'
      subst hi'
      split
      · rename_i hnone
        rw [hcnt] at hnone
        cases hnone
      · rename_i c' hc'
        rw [hcnt] at hc'
        injection hc' with hc'
        subst hc'
        rfl

/-- The raw artist parse at a minimal wire object whose id is a numeric
string and whose count is a native number. -/
theorem c4_raw_eval (n cv : Nat) (hc : cv < 2 ^ 64) :
    RawArtist.fromJson (Json.obj [("id", Json.str (natToString n)),
        ("name", Json.str "A"), ("albumCount", Json.num cv)])
      = .ok ⟨natToString n, "A", none, cv, []⟩ := by
  have hcnt : getField [("id", Json.str (natToString n)),
      ("name", Json.str "A"), ("albumCount", Json.num cv)] "albumCount"
      = some (Json.num cv) := rfl
  have halb : getField [("id", Json.str (natToString n)),
      ("name", Json.str "A"), ("albumCount", Json.num cv)] "album"
      = none := rfl
  simp only [RawArtist.fromJson,
    reqString_of_getField [("id", Json.str (natToString n)),
      ("name", Json.str "A"), ("albumCount", Json.num cv)] "id"
      (natToString n) rfl,
    reqString_of_getField [("id", Json.str (natToString n)),
      ("name", Json.str "A"), ("albumCount", Json.num cv)] "name" "A" rfl,
    optString_of_getField_none [("id", Json.str (natToString n)),
      ("name", Json.str "A"), ("albumCount", Json.num cv)] "coverArt" rfl,
    reqU64_of_getField [("id", Json.str (natToString n)),
      ("name", Json.str "A"), ("albumCount", Json.num cv)] "albumCount"
      cv hcnt hc,
    halb, except_ok_bind, except_pure_eq]

/-- The artist normalizer at the same minimal wire object. -/
theorem c4_artist_eval (n cv : Nat) (hn : n < 2 ^ 64) (hc : cv < 2 ^ 64) :
    Artist.fromJson (Json.obj [("id", Json.str (natToString n)),
        ("name", Json.str "A"), ("albumCount", Json.num cv)])
      = .ok ⟨n, "A", none, [], cv⟩ :=
  artist_fromJson_of_raw _ ⟨natToString n, "A", none, cv, []⟩
    (c4_raw_eval n cv hc) n (parseU64_natToString n hn)

/-- The raw similar-artist parse at a minimal wire object whose id and
count are both numeric strings. -/
theorem c4_similar_raw_eval (n cv : Nat) :
    RawSimilarArtist.fromJson (Json.obj [("id", Json.str (natToString n)),
        ("name", Json.str "A"), ("albumCount", Json.str (natToString cv))])
      = .ok ⟨natToString n, "A", none, natToString cv⟩ := by
  have hcnt : getField [("id", Json.str (natToString n)),
      ("name", Json.str "A"), ("albumCount", Json.str (natToString cv))]
      "albumCount" = some (Json.str (natToString cv)) := rfl
  simp only [RawSimilarArtist.fromJson,
    reqString_of_getField [("id", Json.str (natToString n)),
      ("name", Json.str "A"), ("albumCount", Json.str (natToString cv))]
      "id" (natToString n) rfl,
    reqString_of_getField [("id", Json.str (natToString n)),
      ("name", Json.str "A"), ("albumCount", Json.str (natToString cv))]
      "name" "A" rfl,
    optString_of_getField_none [("id", Json.str (natToString n)),
      ("name", Json.str "A"), ("albumCount", Json.str (natToString cv))]
      "coverArt" rfl,
    reqString_of_getField [("id", Json.str (natToString n)),
      ("name", Json.str "A"), ("albumCount", Json.str (natToString cv))]
      "albumCount" (natToString cv) hcnt,
    except_ok_bind, except_pure_eq]

/-- Counterexample to C4 as stated: the artist payload with the identity
field as the numeric string `"1"` normalizes, but with the native number
`1` the same payload is rejected with a type error — the two wire forms
do not both succeed with the same value. -/
theorem c4_counterexample :
    Artist.fromJson (Json.obj [("id", Json.str "1"), ("name", Json.str "A"),
        ("albumCount", Json.num 1)]) = .ok ⟨1, "A", none, [], 1⟩ ∧
    Artist.fromJson (Json.obj [("id", Json.num 1), ("name", Json.str "A"),
        ("albumCount", Json.num 1)])
      = .err ("invalid type for field " ++ "id" ++ ", expected a string") :=
  ⟨rfl, rfl⟩

/-- Claim C4 (amended): each declared-numeric field is accepted in exactly
one wire form — the identity fields only as numeric strings (parsed to the
canonical integer), `Artist.albumCount` only as a native number, and
`SimilarArtist.albumCount` only as a numeric string; the other form is
rejected with a deserialization type error rather than normalized. -/
theorem c4_fixed_wire_shapes (n cv : Nat) (hn : n < 2 ^ 64)
    (hc : cv < 2 ^ 64) :
    Artist.fromJson (Json.obj [("id", Json.str (natToString n)),
        ("name", Json.str "A"), ("albumCount", Json.num cv)])
      = .ok ⟨n, "A", none, [], cv⟩ ∧
    Artist.fromJson (Json.obj [("id", Json.num n), ("name", Json.str "A"),
        ("albumCount", Json.num cv)])
      = .err ("invalid type for field " ++ "id" ++ ", expected a string") ∧
    Artist.fromJson (Json.obj [("id", Json.str (natToString n)),
        ("name", Json.str "A"), ("albumCount", Json.str (natToString cv))])
      = .err ("invalid type for field " ++ "albumCount" ++ ", expected u64") ∧
    SimilarArtist.fromJson (Json.obj [("id", Json.str (natToString n)),
        ("name", Json.str "A"), ("albumCount", Json.str (natToString cv))])
      = .ok ⟨n, "A", none, cv⟩ ∧
    SimilarArtist.fromJson (Json.obj [("id", Json.num n),
        ("name", Json.str "A"), ("albumCount", Json.str (natToString cv))])
      = .err ("invalid type for field " ++ "id" ++ ", expected a string") ∧
    SimilarArtist.fromJson (Json.obj [("id", Json.str (natToString n)),
        ("name", Json.str "A"), ("albumCount", Json.num cv)])
      = .err ("invalid type for field " ++ "albumCount"
              ++ ", expected a string") := by
  refine ⟨c4_artist_eval n cv hn hc, rfl, rfl, ?_, rfl, rfl⟩
  exact similar_fromJson_of_raw _ ⟨natToString n, "A", none, natToString cv⟩
      (c4_similar_raw_eval n cv) n cv (parseU64_natToString n hn)
      (parseU64_natToString cv hc)

/-- Witness for C4's amended claim at id 1, count 2. -/
theorem c4_witness :
    Artist.fromJson (Json.obj [("id", Json.str (natToString 1)),
        ("name", Json.str "A"), ("albumCount", Json.num 2)])
      = .ok ⟨1, "A", none, [], 2⟩ ∧
    SimilarArtist.fromJson (Json.obj [("id", Json.str (natToString 1)),
        ("name", Json.str "A"), ("albumCount", Json.str (natToString 2))])
      = .ok ⟨1, "A", none, 2⟩ :=
  ⟨(c4_fixed_wire_shapes 1 2 (by norm_num) (by norm_num)).1,
   (c4_fixed_wire_shapes 1 2 (by norm_num) (by norm_num)).2.2.2.1⟩

/-- Claim C5: on an identity field that is present but not numeric, the
deserializer does not return `Malformed("id", "abc")` to the caller — it
panics through `.parse().unwrap()` (and never substitutes zero or a
default): the embedding evaluated at the failing input. -/
theorem c5_nonnumeric_id_panics :
    Artist.fromJson (Json.obj [("id", Json.str "abc"),
        ("name", Json.str "A"), ("albumCount", Json.num 0)])
      = .panicked ("called `Result::unwrap()` on an `Err` value: " ++ "abc") ∧
    SimilarArtist.fromJson (Json.obj [("id", Json.str "abc"),
        ("name", Json.str "A"), ("albumCount", Json.str "1")])
      = .panicked ("called `Result::unwrap()` on an `Err` value: " ++ "abc") :=
  ⟨rfl, rfl⟩

/-- An adjacent duplicated check in the scan chain is redundant. -/
theorem firstSome_cons_dup (a b : Option Json) (t : List (Option Json)) :
    firstSome (a :: b :: b :: t) = firstSome (a :: b :: t) := by
  cases a <;> cases b <;> rfl

/-- The sequential scan returns the head of the populated sublist. -/
theorem firstSome_eq_head_filterMap (l : List (Option Json)) :
    firstSome l = (l.filterMap id).head? := by
  induction l with
  | nil => rfl
  | cons a t ih => cases a <;> simp [firstSome, ih]

/-- The `maybe!` chain (with its duplicated `music_folders` check) scans
the same first populated field as the canonical 43-field list. -/
theorem scanList_firstSome (r : InnerResponse) :
    firstSome r.scanList = firstSome r.payloadFields :=
  firstSome_cons_dup r.license r.music_folders _

/-- With no embedded error, `into_value` is decided by the head of the
populated payload fields in canonical order. -/
theorem into_value_of_error_none (r : Response) (he : r.inner.error = none) :
    r.into_value =
      match (r.inner.payloadFields.filterMap id).head? with
      | some v => .ok v
      | none => .error (Error.Other "non-exhaustive `into_value()`") := by
  unfold Response.into_value
  rw [he, scanList_firstSome, firstSome_eq_head_filterMap]

/-- An envelope with the given status and error and with only the
`artist` and `album` payload fields possibly populated. -/
def mkInner (status : String) (err : Option ApiError)
    (artistVal albumVal : Option Json) : InnerResponse :=
  ⟨status, "1.14.0", err, none, none, none, none, none, none, artistVal,
   none, albumVal, none, none, none, none, none, none, none, none, none,
   none, none, none, none, none, none, none, none, none, none, none, none,
   none, none, none, none, none, none, none, none, none, none, none, none,
   none⟩

/-- Claim C1: for every envelope with status `"failed"` and its error
field populated, `Response::into_value` returns the `Api` error built
from the embedded code and message, never any payload field's value. -/
theorem c1_failed_returns_api (r : Response) (e : ApiError)
    (_hs : r.inner.status = "failed") (he : r.inner.error = some e) :
    r.into_value = .error (Error.Api e.code e.message) := by
  unfold Response.into_value
  rw [he]

/-- Witness for C1: a failed envelope with a populated `artist` payload
still resolves to the `Api` error. -/
theorem c1_witness :
    (Response.mk (mkInner "failed" (some ⟨70, "Requested resource not found"⟩)
        (some (Json.str "a")) none)).into_value
      = .error (Error.Api 70 "Requested resource not found") :=
  c1_failed_returns_api _ _ rfl rfl

/-- Claim C2: for every ok envelope (no embedded error) with exactly one
populated payload field, `into_value` returns that field's value
unchanged; with at least one populated field it returns the first
populated one in the canonical declaration order, so resolution is
deterministic. -/
theorem c2_ok_first_populated (r : Response)
    (_hs : r.inner.status = "ok") (he : r.inner.error = none) :
    (∀ v, r.inner.payloadFields.filterMap id = [v] → r.into_value = .ok v) ∧
    (∀ v t, r.inner.payloadFields.filterMap id = v :: t →
        r.into_value = .ok v) := by
  constructor
  · intro v h
    rw [into_value_of_error_none r he, h]
    rfl
  · intro v t h
    rw [into_value_of_error_none r he, h]
    rfl

/-- Witness for C2: a single populated `artist` field is returned
unchanged, and with both `artist` and `album` populated the earlier
`artist` field wins. -/
theorem c2_witness :
    (Response.mk (mkInner "ok" none (some (Json.str "x")) none)).into_value
        = .ok (Json.str "x") ∧
    (Response.mk (mkInner "ok" none (some (Json.str "x"))
        (some (Json.str "y")))).into_value = .ok (Json.str "x") :=
  ⟨(c2_ok_first_populated _ rfl rfl).1 _ rfl,
   (c2_ok_first_populated _ rfl rfl).2 _ [Json.str "y"] rfl⟩

/-- Claim C3: an ok envelope with no embedded error and zero populated
payload fields resolves to the terminal unrecognized-payload error (the
code's `Error::Other("non-exhaustive into_value()")` value), never to an
empty or default payload. -/
theorem c3_empty_unrecognized (r : Response)
    (_hs : r.inner.status = "ok") (he : r.inner.error = none)
    (hp : r.inner.payloadFields.filterMap id = []) :
    r.into_value = .error (Error.Other "non-exhaustive `into_value()`") := by
  rw [into_value_of_error_none r he, hp]
  rfl

/-- Witness for C3: the all-empty ok envelope resolves to the terminal
error. -/
theorem c3_witness :
    (Response.mk (mkInner "ok" none none none)).into_value
      = .error (Error.Other "non-exhaustive `into_value()`") :=
  c3_empty_unrecognized _ rfl rfl rfl

/-- Claim C9: `into_value` branches solely on the error field, never on
the status string: a populated error yields the `Api` error whatever the
status, and an absent error yields the first populated payload field
whatever the status. -/
theorem c9_error_field_decides (r : Response) :
    (∀ e, r.inner.error = some e →
        r.into_value = .error (Error.Api e.code e.message)) ∧
    (∀ v, r.inner.error = none →
        firstSome r.inner.payloadFields = some v → r.into_value = .ok v) := by
  constructor
  · intro e he
    unfold Response.into_value
    rw [he]
  · intro v he hv
    unfold Response.into_value
    rw [he, scanList_firstSome, hv]

/-- Witness for C9: a `"failed"`-status envelope without an error field
resolves to its populated payload, and an `"ok"`-status envelope with an
error field resolves to the `Api` error. -/
theorem c9_witness :
    (Response.mk (mkInner "failed" none (some (Json.str "x")) none)).into_value
        = .ok (Json.str "x") ∧
    (Response.mk (mkInner "ok" (some ⟨10, "m"⟩) none none)).into_value
        = .error (Error.Api 10 "m") :=
  ⟨(c9_error_field_decides _).2 _ rfl rfl,
   (c9_error_field_decides _).1 _ rfl⟩

/-- Claim C10: `is_ok` holds exactly when the status string is `"ok"` and
`is_err` exactly when it is `"failed"`; on any other status both are
false, and they are never both true — so they are not negations of each
other. -/
theorem c10_is_ok_is_err (r : Response) :
    (r.is_ok = true ↔ r.inner.status = "ok") ∧
    (r.is_err = true ↔ r.inner.status = "failed") ∧
    (r.inner.status ≠ "ok" → r.inner.status ≠ "failed" →
        r.is_ok = false ∧ r.is_err = false) ∧
    ¬(r.is_ok = true ∧ r.is_err = true) := by
  refine ⟨?_, ?_, ?_, ?_⟩
  · simp [Response.is_ok]
  · simp [Response.is_err]
  · intro h1 h2
    simp [Response.is_ok, Response.is_err, h1, h2]
  · rintro ⟨h1, h2⟩
    simp only [Response.is_ok, Response.is_err, beq_iff_eq] at h1 h2
    rw [h1] at h2
    exact absurd h2 (by decide)

/-- Witness for C10: concrete envelopes with status `"ok"`, `"failed"`
and `"weird"`. -/
theorem c10_witness :
    (Response.mk (mkInner "ok" none none none)).is_ok = true ∧
    (Response.mk (mkInner "failed" none none none)).is_err = true ∧
    (Response.mk (mkInner "weird" none none none)).is_ok = false ∧
    (Response.mk (mkInner "weird" none none none)).is_err = false :=
  ⟨(c10_is_ok_is_err _).1.mpr rfl, (c10_is_ok_is_err _).2.1.mpr rfl,
   ((c10_is_ok_is_err _).2.2.1 (by decide) (by decide)).1,
   ((c10_is_ok_is_err _).2.2.1 (by decide) (by decide)).2⟩

/-! ## Accessor operations: reconciliation and upgrade -/

/-- Claim C6: `Artist::albums` returns the embedded album sequence as-is
with no transport call when its length equals `album_count`; when they
differ it performs exactly one `getArtist` fetch by the artist's id and
returns the freshly fetched embedded list (or the surfaced error),
discarding the original partial list. -/
theorem c6_albums_reconciliation (a : Artist) (c : ClientFn) :
    (a.albums.length = a.album_count →
        a.albumsWith c = (.ok a.albums, [])) ∧
    (a.albums.length ≠ a.album_count →
        (a.albumsWith c).2
          = [("getArtist", queryWith "id" (natToString a.id))] ∧
        (∀ art, (get_artist c a.id).1 = .ok art →
            (a.albumsWith c).1 = .ok art.albums) ∧
        (∀ e, (get_artist c a.id).1 = .err e →
            (a.albumsWith c).1 = .err e)) := by
  constructor
  · intro h
    unfold Artist.albumsWith
    rw [if_neg (by omega)]
  · intro h
    have hsplit : a.albumsWith c =
        (match (get_artist c a.id).1 with
         | .ok art => .ok art.albums
         | .err e => .err e
         | .panicked m => .panicked m,
         (get_artist c a.id).2) := by
      unfold Artist.albumsWith
      rw [if_pos h]
    refine ⟨?_, ?_, ?_⟩
    · rw [hsplit]
      rfl
    · intro art hart
      rw [hsplit]
      simp only [hart]
    · intro e he
      rw [hsplit]
      simp only [he]

/-- A transport stub that always returns the example artist payload. -/
def demoClient : ClientFn := fun _ _ => .ok exampleArtistJson

/-- A transport stub that always fails with `NotFound`. -/
def notFoundClient : ClientFn := fun _ _ => .error Error.NotFound

/-- Witness for C6: an artist whose embedded list matches its count is
answered from the embedded list with an empty call trace, and one with a
missing embedded list triggers exactly the one `getArtist` call and
returns the freshly fetched albums. -/
theorem c6_witness :
    Artist.albumsWith ⟨1, "A", none, [⟨1, "Bellevue", 9⟩], 1⟩ demoClient
      = (.ok [⟨1, "Bellevue", 9⟩], []) ∧
    (Artist.albumsWith ⟨1, "A", none, [], 1⟩ demoClient).2
      = [("getArtist", queryWith "id" (natToString 1))] ∧
    (Artist.albumsWith ⟨1, "A", none, [], 1⟩ demoClient).1
      = .ok [⟨1, "Bellevue", 9⟩] :=
  ⟨(c6_albums_reconciliation ⟨1, "A", none, [⟨1, "Bellevue", 9⟩], 1⟩
      demoClient).1 rfl,
   ((c6_albums_reconciliation ⟨1, "A", none, [], 1⟩ demoClient).2
      (by decide)).1,
   ((c6_albums_reconciliation ⟨1, "A", none, [], 1⟩ demoClient).2
      (by decide)).2.1 _ rfl⟩

/-- Claim C7: `SimilarArtist::into_artist` is exactly the fresh full fetch
`get_artist` at the secondary entity's identity — one `getArtist` call,
whose payload re-enters the artist normalizer — and a server-side
`NotFound` failure is surfaced to the caller unchanged, not masked. -/
theorem c7_into_artist_pipeline (s : SimilarArtist) (c : ClientFn) :
    s.into_artist c = get_artist c s.id ∧
    (s.into_artist c).2
      = [("getArtist", queryWith "id" (natToString s.id))] ∧
    (∀ v, c "getArtist" (queryWith "id" (natToString s.id)) = .ok v →
        (s.into_artist c).1 =
          match Artist.fromJson v with
          | .ok a => .ok a
          | .err m => .err (Error.Serde m)
          | .panicked m => .panicked m) ∧
    (c "getArtist" (queryWith "id" (natToString s.id))
        = .error Error.NotFound →
        (s.into_artist c).1 = .err Error.NotFound) := by
  refine ⟨rfl, rfl, ?_, ?_⟩
  · intro v hv
    show (match c "getArtist" (queryWith "id" (natToString s.id)) with
          | .error e => RRes.err e
          | .ok v =>
            match Artist.fromJson v with
            | .ok a => RRes.ok a
            | .err m => RRes.err (Error.Serde m)
            | .panicked m => RRes.panicked m) = _
    rw [hv]
  · intro he
    show (match c "getArtist" (queryWith "id" (natToString s.id)) with
          | .error e => RRes.err e
          | .ok v =>
            match Artist.fromJson v with
            | .ok a => RRes.ok a
            | .err m => RRes.err (Error.Serde m)
            | .panicked m => RRes.panicked m) = _
    rw [he]

/-- Witness for C7: upgrading against the failing transport surfaces
`NotFound`, and against the demo transport yields the freshly normalized
full artist. -/
theorem c7_witness :
    ((⟨5, "S", none, 2⟩ : SimilarArtist).into_artist notFoundClient).1
      = .err Error.NotFound ∧
    ((⟨5, "S", none, 2⟩ : SimilarArtist).into_artist demoClient).1
      = .ok ⟨1, "Misteur Valaire", some "ar-1", [⟨1, "Bellevue", 9⟩], 1⟩ :=
  ⟨(c7_into_artist_pipeline ⟨5, "S", none, 2⟩ notFoundClient).2.2.2 rfl,
   by
    rw [(c7_into_artist_pipeline ⟨5, "S", none, 2⟩ demoClient).2.2.1
        exampleArtistJson rfl]
    rfl⟩
